import Mathlib

/-
Verification of the tor-fw-helper NAT traversal helper.

Shallow embedding of the protocol-client library:
  * the NAT-PMP packet codec (natclient/natpmp/packet.go),
  * the NAT-PMP client operations (natclient/natpmp/client.go),
  * the UPnP IGD SOAP operations (natclient/upnp/igd.go),
  * UPnP SSDP URN parsing and service selection (natclient/upnp/ssdp.go),
  * the backend selector (natclient/natclient.go).

Go machine integers are modelled as Int (Go int) and Nat (unsigned fields),
with explicit reduction modulo 2^w where Go performs a narrowing conversion.
Byte buffers are `List Nat` with big-endian multi-byte fields exactly as
encoding/binary produces them.  Network I/O is modelled by explicit oracles
(functions supplying the response the router would give), and the requests a
function sends are returned as an explicit trace.
-/

deriving instance DecidableEq for Except

/-- Go `byte(x)` narrowing conversion. -/
def byteOf (n : Nat) : Nat := n % 256

/-- Go `uint16(x)` conversion from `int` (two's-complement wrap). -/
def uint16ofInt (i : Int) : Nat := (i % 65536).toNat

/-- Go `uint32(x)` conversion from `int`. -/
def uint32ofInt (i : Int) : Nat := (i % 4294967296).toNat

/-- Go `uint64(x)` conversion from `int`. -/
def uint64ofInt (i : Int) : Nat := (i % 18446744073709551616).toNat

/-- binary.BigEndian.Uint16: read two bytes, most significant first. -/
def be16 (hi lo : Nat) : Nat := hi * 256 + lo

/-- binary.BigEndian.Uint32: read four bytes, most significant first. -/
def be32 (b0 b1 b2 b3 : Nat) : Nat := b0 * 16777216 + b1 * 65536 + b2 * 256 + b3

/-- binary.BigEndian.PutUint16: two bytes, most significant first. -/
def put16 (v : Nat) : List Nat := [byteOf (v / 256), byteOf v]

/-- binary.BigEndian.PutUint32: four bytes, most significant first. -/
def put32 (v : Nat) : List Nat :=
  [byteOf (v / 16777216), byteOf (v / 65536), byteOf (v / 256), byteOf v]

/-- The error values the embedded functions can surface.  Constructors cover
the syscall errnos used by the code (`ERANGE`, `ENOTSUP`, `ETIMEDOUT`), the
fmt.Errorf diagnostics of the NAT-PMP codec and clients, the NAT-PMP result
code taxonomy of resultCodeToError, and the selector errors, plus an opaque
constructor for errors produced by the environment (network failures etc.). -/
inductive GoErr where
  | erange
  | enotsup
  | etimedout
  | packetTooShort
  | notExternalAddressResp
  | notRequestMappingResp
  | invalidPacketLength
  | staleMappingResp
  | unsupportedNatpmpVersion
  | notAuthorized
  | networkFailure
  | outOfResources
  | unsupportedOpcode
  | unknownFailure
  | mappedDifferentPort
  | invalidAddResponse
  | unknownProtocol
  | failedToInitialize
  | envErr (tag : Nat)
  deriving DecidableEq

/- ===== NAT-PMP packet codec (natclient/natpmp/packet.go) ===== -/

/-- const version = 0 -/
def natpmpVersion : Nat := 0

/-- const opExternalAddress = 0 -/
def opExternalAddress : Nat := 0

/-- const opRequestMappingTCP = 2 -/
def opRequestMappingTCP : Nat := 2

/-- const opRespOffset = 128 -/
def opRespOffset : Nat := 128

/-- const hdrLength = 4 -/
def hdrLength : Nat := 4

/-- const externalAddressRespLength = hdrLength + 8 -/
def externalAddressRespLength : Nat := hdrLength + 8

/-- const requestMappingReqLength = hdrLength + 8 -/
def requestMappingReqLength : Nat := hdrLength + 8

/-- const requestMappingRespLength = hdrLength + 12 -/
def requestMappingRespLength : Nat := hdrLength + 12

/-- const defaultMappingDuration = 7200 -/
def defaultMappingDuration : Nat := 7200

/-- type packetHdr struct { version, op uint8; resultCode uint16 } -/
structure PacketHdr where
  version : Nat
  op : Nat
  resultCode : Nat
  deriving DecidableEq

/-- type externalAddressResp struct { packetHdr; epochTime uint32; extAddr net.IP } -/
structure ExternalAddressResp where
  hdr : PacketHdr
  epochTime : Nat
  extAddr : List Nat
  deriving DecidableEq

/-- type requestMappingResp struct { packetHdr; epochTime uint32;
internalPort, mappedPort uint16; mappingLifetime uint32 } -/
structure RequestMappingResp where
  hdr : PacketHdr
  epochTime : Nat
  internalPort : Nat
  mappedPort : Nat
  mappingLifetime : Nat
  deriving DecidableEq

/-- type requestMappingReq struct { internalPort, externalPort uint16;
mappingLifetime uint32 } -/
structure RequestMappingReq where
  internalPort : Nat
  externalPort : Nat
  mappingLifetime : Nat
  deriving DecidableEq

/-- func decodePacketHdr: fails when the buffer holds fewer than hdrLength
bytes, else reads version, opcode and the big-endian result code. -/
def decodePacketHdr (raw : List Nat) : Except GoErr PacketHdr :=
  if raw.length < hdrLength then .error .packetTooShort
  else .ok { version := raw.getD 0 0, op := raw.getD 1 0,
             resultCode := be16 (raw.getD 2 0) (raw.getD 3 0) }

/-- func resultCodeToError: the NAT-PMP result code taxonomy; code 0 maps to
the nil error (none). -/
def resultCodeToError (code : Nat) : Option GoErr :=
  match code with
  | 0 => none
  | 1 => some .unsupportedNatpmpVersion
  | 2 => some .notAuthorized
  | 3 => some .networkFailure
  | 4 => some .outOfResources
  | 5 => some .unsupportedOpcode
  | _ => some .unknownFailure

/-- func newRequestMappingReq(internal, external, duration int): range-checks
the three fields exactly as the Go code does (internal against
math.MaxUint16, external and duration against math.MaxUint32) and builds the
request struct with Go's narrowing conversions. -/
def newRequestMappingReq (internal external duration : Int) :
    Except GoErr RequestMappingReq :=
  if internal < 0 ∨ internal > 65535 then .error .erange
  else if external < 0 ∨ external > 4294967295 then .error .erange
  else if duration < 0 ∨ duration > 4294967295 then .error .erange
  else .ok { internalPort := uint16ofInt internal,
             externalPort := uint16ofInt external,
             mappingLifetime := uint32ofInt duration }

/-- func (r *requestMappingReq) op() -/
def RequestMappingReq.opcode (_ : RequestMappingReq) : Nat := opRequestMappingTCP

/-- func (r *requestMappingReq) encode(): 12-byte buffer
{version, op, reserved(2), internal(2), external(2), lifetime(4)}. -/
def RequestMappingReq.encode (r : RequestMappingReq) : List Nat :=
  [natpmpVersion, r.opcode, 0, 0] ++ put16 r.internalPort ++
    put16 r.externalPort ++ put32 r.mappingLifetime

/-- func decodeExternalAddressResp: header decode, opcode check
(op = 0+128), result-code mapping, then total-length check, then payload. -/
def decodeExternalAddressResp (raw : List Nat) :
    Except GoErr ExternalAddressResp :=
  match decodePacketHdr raw with
  | .error e => .error e
  | .ok h =>
    if h.op ≠ opExternalAddress + opRespOffset then .error .notExternalAddressResp
    else
      -- if h.resultCode != resSuccess { return nil, resultCodeToError(...) }
      match resultCodeToError h.resultCode with
      | some e => .error e
      | none =>
        if raw.length ≠ externalAddressRespLength then .error .invalidPacketLength
        else .ok { hdr := h,
                   epochTime := be32 (raw.getD 4 0) (raw.getD 5 0)
                     (raw.getD 6 0) (raw.getD 7 0),
                   extAddr := [raw.getD 8 0, raw.getD 9 0,
                     raw.getD 10 0, raw.getD 11 0] }

/-- func decodeRequestMappingResp(req, raw): header decode, opcode check
(op = req.op()+128), result-code mapping, total-length check, payload decode,
then the stale-response check req.internalPort == resp.internalPort. -/
def decodeRequestMappingResp (req : RequestMappingReq) (raw : List Nat) :
    Except GoErr RequestMappingResp :=
  match decodePacketHdr raw with
  | .error e => .error e
  | .ok h =>
    if h.op ≠ req.opcode + opRespOffset then .error .notRequestMappingResp
    else
      match resultCodeToError h.resultCode with
      | some e => .error e
      | none =>
        if raw.length ≠ requestMappingRespLength then .error .invalidPacketLength
        else
          let p : RequestMappingResp :=
            { hdr := h,
              epochTime := be32 (raw.getD 4 0) (raw.getD 5 0)
                (raw.getD 6 0) (raw.getD 7 0),
              internalPort := be16 (raw.getD 8 0) (raw.getD 9 0),
              mappedPort := be16 (raw.getD 10 0) (raw.getD 11 0),
              mappingLifetime := be32 (raw.getD 12 0) (raw.getD 13 0)
                (raw.getD 14 0) (raw.getD 15 0) }
          if req.internalPort ≠ p.internalPort then .error .staleMappingResp
          else .ok p

/- ===== NAT-PMP client (natclient/natpmp/client.go) ===== -/

/-- The dynamic value Client.issueRequest hands back: the Go code returns an
interface{} that AddPortMapping type-asserts against *requestMappingResp. -/
inductive IssueValue where
  | mappingResp (r : RequestMappingResp)
  | otherResp
  deriving DecidableEq

/-- A network oracle standing for Client.issueRequest: for the request the
client would transmit, it yields either the error the driver surfaced
(timeout, write failure, ...) or the decoded value the driver returned. -/
def IssueOracle : Type := RequestMappingReq → Except GoErr IssueValue

/-- var allowDeletePortMapping = false — the package-level default; the
undocumented command-line flag natpmp-allow-delete is its only writer. -/
def allowDeletePortMapping : Bool := false

/-- func (c *Client) AddPortMapping(description, internalPort, externalPort,
duration): a 0 duration is rewritten to defaultMappingDuration before the
request is built; on a mapping response the mapped port is compared with the
requested external port.  Returns the call's result together with the request
that was issued (none when encoding failed and nothing was sent). -/
def natpmpAddPortMapping (oracle : IssueOracle)
    (internalPort externalPort duration : Int) :
    Except GoErr Unit × Option RequestMappingReq :=
  let duration := if duration = 0 then (defaultMappingDuration : Int) else duration
  match newRequestMappingReq internalPort externalPort duration with
  | .error e => (.error e, none)
  | .ok req =>
    match oracle req with
    | .error e => (.error e, some req)
    | .ok (.mappingResp resp) =>
      -- if int(resp.mappedPort) == externalPort { return nil }
      if (resp.mappedPort : Int) = externalPort then (.ok (), some req)
      else (.error .mappedDifferentPort, some req)
    | .ok .otherResp => (.error .invalidAddResponse, some req)

/-- func (c *Client) DeletePortMapping(internalPort, externalPort): when
allowDeletePortMapping is false it returns syscall.ENOTSUP at once; otherwise
it builds a mapping request with external port 0 and lifetime 0 and returns
the error component of issueRequest.  The second component is the trace of
requests handed to the network. -/
def natpmpDeletePortMapping (allowDelete : Bool) (oracle : IssueOracle)
    (internalPort externalPort : Int) :
    Option GoErr × List RequestMappingReq :=
  if allowDelete then
    match newRequestMappingReq internalPort 0 0 with
    | .error e => (some e, [])
    | .ok req =>
      match oracle req with
      | .error e => (some e, [req])
      | .ok _ => (none, [req])
  else (some .enotsup, [])

/-- A mapping response granting exactly the requested 9001 <-> 9001 lease;
used to instantiate the network oracles in witnesses. -/
def respHappy : RequestMappingResp :=
  { hdr := { version := 0, op := 130, resultCode := 0 },
    epochTime := 0, internalPort := 9001, mappedPort := 9001,
    mappingLifetime := 7200 }

/-- An oracle for a router that answers every mapping request with
respHappy. -/
def oracleHappy : IssueOracle := fun _ => .ok (.mappingResp respHappy)

/- ===== UPnP SSDP: URNs, device tree, service selection (ssdp.go) ===== -/

/-- Go strings.Split(s, ":") over the character list of a Go string: split at
every colon, preserving empty parts; always returns at least one part. -/
def splitColon : List Char → List (List Char)
  | [] => [[]]
  | c :: cs =>
    if c = ':' then [] :: splitColon cs
    else
      match splitColon cs with
      | [] => [[c]]
      | p :: ps => (c :: p) :: ps

/-- Rejoin colon-separated parts; left inverse of splitColon. -/
def joinColon : List (List Char) → List Char
  | [] => []
  | [p] => p
  | p :: ps => p ++ ':' :: joinColon ps

/-- An ASCII decimal digit. -/
def isDigit (c : Char) : Bool := 48 ≤ c.toNat && c.toNat ≤ 57

/-- Value of an ASCII decimal digit. -/
def digitVal (c : Char) : Nat := c.toNat - 48

/-- ASCII character of a decimal digit. -/
def digitChar (n : Nat) : Char := Char.ofNat (48 + n)

/-- strconv.ParseInt digit loop, base 10: every character must be a digit. -/
def parseDigits : List Char → Nat → Option Nat
  | [], acc => some acc
  | c :: cs, acc =>
    if isDigit c then parseDigits cs (acc * 10 + digitVal c) else none

/-- strconv.ParseInt(s, 10, 8): optional leading sign, at least one digit,
and the signed value must fit in 8 bits ([-128, 127]); anything else is a
parse error (none). -/
def parseInt8 (s : List Char) : Option Int :=
  match s with
  | [] => none
  | '+' :: rest =>
    if rest.isEmpty then none
    else
      match parseDigits rest 0 with
      | none => none
      | some n => if n ≤ 127 then some (n : Int) else none
  | '-' :: rest =>
    if rest.isEmpty then none
    else
      match parseDigits rest 0 with
      | none => none
      | some n => if n ≤ 128 then some (-(n : Int)) else none
  | _ =>
    match parseDigits s 0 with
    | none => none
    | some n => if n ≤ 127 then some (n : Int) else none

/-- Decimal digits of a Nat, most significant first (fuel-driven so that it
computes by kernel reduction; fuel n+1 always suffices). -/
def natDigitsAux : Nat → Nat → List Char → List Char
  | 0, _, acc => acc
  | fuel + 1, n, acc =>
    let acc2 := digitChar (n % 10) :: acc
    if n < 10 then acc2 else natDigitsAux fuel (n / 10) acc2

/-- fmt %d rendering of a Nat. -/
def natToChars (n : Nat) : List Char := natDigitsAux (n + 1) n []

/-- fmt %d rendering of a Go int. -/
def intToChars (v : Int) : List Char :=
  if v < 0 then '-' :: natToChars (-v).toNat else natToChars v.toNat

/-- type upnpURN struct { domainName, kind, kindType string; version int } -/
structure UpnpURN where
  domainName : List Char
  kind : List Char
  kindType : List Char
  version : Int
  deriving DecidableEq

/-- func parseURN(s): split on colons; demand exactly 5 parts, first part
literally "urn", and a version parsing as a signed 8-bit integer. -/
def parseURN (s : List Char) : Option UpnpURN :=
  let split := splitColon s
  if split.length ≠ 5 then none
  else if split.getD 0 [] ≠ "urn".data then none
  else
    match parseInt8 (split.getD 4 []) with
    | none => none
    | some v => some ⟨split.getD 1 [], split.getD 2 [], split.getD 3 [], v⟩

/-- func (u *upnpURN) String(): fmt.Sprintf of urn:%s:%s:%s:%d. -/
def UpnpURN.render (u : UpnpURN) : List Char :=
  "urn".data ++ ':' :: u.domainName ++ ':' :: u.kind ++ ':' :: u.kindType ++
    ':' :: intToChars u.version

/-- type upnpService (the fields service selection reads). -/
structure UpnpService where
  serviceType : List Char
  controlURL : List Char
  deriving DecidableEq

/-- type upnpDevice (the fields service selection reads): type URN, child
device list and service list. -/
inductive UpnpDevice where
  | mk (deviceType : List Char) (deviceList : List UpnpDevice)
      (serviceList : List UpnpService)

/-- deviceType field accessor. -/
def UpnpDevice.deviceType : UpnpDevice → List Char
  | .mk t _ _ => t

/-- deviceList field accessor. -/
def UpnpDevice.deviceList : UpnpDevice → List UpnpDevice
  | .mk _ ds _ => ds

/-- serviceList field accessor. -/
def UpnpDevice.serviceList : UpnpDevice → List UpnpService
  | .mk _ _ ss => ss

/-- const internetGatewayDevice -/
def internetGatewayDevice : List Char := "InternetGatewayDevice".data

/-- const wanDevice -/
def wanDevice : List Char := "WANDevice".data

/-- const wanConnectionDevice -/
def wanConnectionDevice : List Char := "WANConnectionDevice".data

/-- const wanIPConnection -/
def wanIPConnection : List Char := "WANIPConnection".data

/-- const wanPPPConnection -/
def wanPPPConnection : List Char := "WANPPPConnection".data

/-- The "device" URN kind. -/
def deviceKind : List Char := "device".data

/-- The "service" URN kind. -/
def serviceKind : List Char := "service".data

/-- func (d *upnpDevice) is(k): parse the type URN (malformed: false) and
compare kind and kind-type, ignoring domain and version. -/
def UpnpDevice.isType (d : UpnpDevice) (k : List Char) : Bool :=
  match parseURN d.deviceType with
  | none => false
  | some urn => urn.kind == deviceKind && urn.kindType == k

/-- func (s *upnpService) is(k). -/
def UpnpService.isType (s : UpnpService) (k : List Char) : Bool :=
  match parseURN s.serviceType with
  | none => false
  | some urn => urn.kind == serviceKind && urn.kindType == k

/-- func (d *upnpDevice) findChild(k): first direct child of the wanted type. -/
def UpnpDevice.findChild (d : UpnpDevice) (k : List Char) : Option UpnpDevice :=
  d.deviceList.find? (fun dd => dd.isType k)

/-- func (d *upnpDevice) findService(k): first service of the wanted type. -/
def UpnpDevice.findService (d : UpnpDevice) (k : List Char) : Option UpnpService :=
  d.serviceList.find? (fun s => s.isType k)

/-- The service-selection walk of Client.discover for one candidate device
description: the root device must be an InternetGatewayDevice (checked
before any service is consulted), then a WANDevice child, then a
WANConnectionDevice child, then a service — WANIPConnection preferred,
WANPPPConnection the fallback (okServices iteration order).  The URL
resolution around the walk is network glue and is not modelled. -/
def selectService (rootD : UpnpDevice) : Option UpnpService :=
  if ¬ rootD.isType internetGatewayDevice then none
  else
    match rootD.findChild wanDevice with
    | none => none
    | some wanD =>
      match wanD.findChild wanConnectionDevice with
      | none => none
      | some wanConnD =>
        match wanConnD.findService wanIPConnection with
        | some s => some s
        | none => wanConnD.findService wanPPPConnection

/-- The candidate loop of Client.discover: each entry is a downloaded device
description (none = the download failed); a miss at any step moves on to the
next candidate URL. -/
def discoverFirst : List (Option UpnpDevice) → Option UpnpService
  | [] => none
  | none :: rest => discoverFirst rest
  | some rootD :: rest =>
    match selectService rootD with
    | some s => some s
    | none => discoverFirst rest

/- ===== UPnP IGD SOAP operations (natclient/upnp/igd.go) ===== -/

/-- const maxMappingDuration = 604800 -/
def maxMappingDuration : Int := 604800

/-- type getGenPMapEntResponse: the fields of a GetGenericPortMappingEntry
response body. -/
structure PortMappingEntry where
  remoteHost : String
  externalPort : Int
  protocol : String
  internalPort : Int
  internalClient : String
  enabled : Int
  portMappingDescription : String
  leaseDuration : Int

/-- The per-entry rendering in GetListOfPortMappings: fmt.Sprintf of
'%s' %s:%d <-> %s:%d %s (%d sec), with an empty remote host shown as
0.0.0.0. -/
def formatPortMapping (r : PortMappingEntry) : String :=
  let remoteHost := if r.remoteHost = "" then "0.0.0.0" else r.remoteHost
  "'" ++ r.portMappingDescription ++ "' " ++ r.internalClient ++ ":" ++
    toString r.internalPort ++ " <-> " ++ remoteHost ++ ":" ++
    toString r.externalPort ++ " " ++ r.protocol ++ " (" ++
    toString r.leaseDuration ++ " sec)"

/-- A SOAP oracle for GetGenericPortMappingEntry: for a queried index the
router either returns a SOAP Fault (error) or a 200 response, possibly
carrying an entry body. -/
def EntryOracle : Type := Nat → Except Unit (Option PortMappingEntry)

/-- The loop body of Client.GetListOfPortMappings: for idx := 0; idx <
math.MaxUint16; idx++ — ask for entry idx; a Fault breaks the walk; a
response with an entry body is formatted and collected.  Returns the
collected strings and the trace of queried indices. -/
def getListLoop (router : EntryOracle) : Nat → Nat → List String × List Nat
  | 0, _ => ([], [])
  | fuel + 1, idx =>
    match router idx with
    | .error _ => ([], [idx])
    | .ok none =>
      let r := getListLoop router fuel (idx + 1)
      (r.1, idx :: r.2)
    | .ok (some entry) =>
      let r := getListLoop router fuel (idx + 1)
      (formatPortMapping entry :: r.1, idx :: r.2)

/-- func (c *Client) GetListOfPortMappings: indices start at 0 and the loop
runs at most math.MaxUint16 = 65535 iterations; the function itself always
returns a nil error. -/
def getListOfPortMappings (router : EntryOracle) : List String × List Nat :=
  getListLoop router 65535 0

/-- The SOAP argument set of an AddPortMapping control request (numeric
fields carry the values rendered by strconv.FormatUint). -/
structure AddPortMappingArgs where
  newRemoteHost : String
  newExternalPort : Nat
  newProtocol : String
  newInternalPort : Nat
  newInternalClient : String
  newEnabled : Nat
  newPortMappingDescription : String
  newLeaseDuration : Nat
  deriving DecidableEq

/-- func (c *Client) AddPortMapping (igd.go): only duration >
maxMappingDuration is rejected with syscall.ERANGE; otherwise the SOAP
request is issued with NewLeaseDuration = FormatUint(uint64(duration)) —
reduction modulo 2^64 — and the SOAP outcome is returned.  The second
component is the issued request, none when nothing was sent.  The argument
assembly (the argsXML string concatenation) is split out below. -/
def mkAddPortMappingArgs (internalClient descr : String)
    (internalPort externalPort duration : Int) : AddPortMappingArgs :=
  { newRemoteHost := "", newExternalPort := uint64ofInt externalPort,
    newProtocol := "TCP", newInternalPort := uint64ofInt internalPort,
    newInternalClient := internalClient, newEnabled := 1,
    newPortMappingDescription := descr,
    newLeaseDuration := uint64ofInt duration }

def upnpAddPortMapping (soap : AddPortMappingArgs → Option GoErr)
    (internalClient descr : String)
    (internalPort externalPort duration : Int) :
    Except GoErr Unit × Option AddPortMappingArgs :=
  if duration > maxMappingDuration then (.error .erange, none)
  else
    let args := mkAddPortMappingArgs internalClient descr internalPort
      externalPort duration
    match soap args with
    | some e => (.error e, some args)
    | none => (.ok (), some args)

/- ===== Backend selector (natclient/natclient.go) ===== -/

/-- The UPnP factory name. -/
def upnpMethodName : String := "UPnP"

/-- The NAT-PMP factory name. -/
def natpmpMethodName : String := "NAT-PMP"

/-- var factoryNames after init(): UPnP registered first, NAT-PMP second. -/
def factoryNames : List String := [upnpMethodName, natpmpMethodName]

/-- A probe oracle standing for ClientFactory.New of each registered backend:
a live client (abstracted to a tag) or the probe's failure. -/
def ProbeOracle : Type := String → Except GoErr Nat

/-- The registration-order iteration of New for an empty protocol: first
factory whose probe yields a client wins; a failed probe moves on.  The
second component is the trace of attempted backends. -/
def selectorLoop (probe : ProbeOracle) :
    List String → Except GoErr Nat × List String
  | [] => (.error .failedToInitialize, [])
  | name :: rest =>
    match probe name with
    | .ok c => (.ok c, [name])
    | .error _ =>
      let r := selectorLoop probe rest
      (r.1, name :: r.2)

/-- func New(protocol, verbose): a non-empty protocol is looked up in the
registry and a missing name fails with "unknown protocol" before anything is
probed; an empty protocol iterates the factories in registration order. -/
def selectorNew (probe : ProbeOracle) (protocol : String) :
    Except GoErr Nat × List String :=
  if protocol ≠ "" then
    if factoryNames.contains protocol then
      match probe protocol with
      | .ok c => (.ok c, [protocol])
      | .error e => (.error e, [protocol])
    else (.error .unknownProtocol, [])
  else selectorLoop probe factoryNames

/- ===== Concrete fixtures used by witnesses and counterexamples ===== -/

/-- A WANIPConnection service (fixture). -/
def svcIP : UpnpService :=
  { serviceType := "urn:schemas-upnp-org:service:WANIPConnection:1".data,
    controlURL := "/ctl".data }

/-- A WANPPPConnection service (fixture). -/
def svcPPP : UpnpService :=
  { serviceType := "urn:schemas-upnp-org:service:WANPPPConnection:1".data,
    controlURL := "/ctl2".data }

/-- A WANConnectionDevice holding both WAN services (fixture). -/
def devWanConn : UpnpDevice :=
  .mk "urn:schemas-upnp-org:device:WANConnectionDevice:1".data [] [svcIP, svcPPP]

/-- A WANDevice with the WANConnectionDevice child (fixture). -/
def devWan : UpnpDevice :=
  .mk "urn:schemas-upnp-org:device:WANDevice:1".data [devWanConn] []

/-- An InternetGatewayDevice root over the full path (fixture). -/
def devRoot : UpnpDevice :=
  .mk "urn:schemas-upnp-org:device:InternetGatewayDevice:1".data [devWan] []

/-- A non-IGD root that nevertheless has the whole WAN subtree and a
service list of its own (fixture for the root-type check). -/
def devPrinter : UpnpDevice :=
  .mk "urn:schemas-upnp-org:device:Printer:1".data [devWan] [svcIP]

/-- A port-mapping entry a router might report (fixture). -/
def entryHappy : PortMappingEntry :=
  { remoteHost := "", externalPort := 9001, protocol := "TCP",
    internalPort := 9001, internalClient := "192.168.1.2", enabled := 1,
    portMappingDescription := "tor", leaseDuration := 480 }

/-- A router answering every index below n with entryHappy and faulting at
n (fixture). -/
def routerUpTo (n : Nat) : EntryOracle :=
  fun i => if i < n then .ok (some entryHappy) else .error ()

/-- A SOAP endpoint accepting every AddPortMapping request (fixture). -/
def soapAlwaysOk : AddPortMappingArgs → Option GoErr := fun _ => none

/-- The internal client address used in fixtures. -/
def internalClientW : String := "192.168.1.2"

/-- The mapping description used in fixtures. -/
def descrW : String := "tor"

/-- A probe for which every backend fails (fixture). -/
def probeAllFail : ProbeOracle := fun _ => .error .etimedout

/-- A probe for which only UPnP succeeds (fixture). -/
def probeUpnpOnly : ProbeOracle :=
  fun name => if name = upnpMethodName then .ok 1 else .error .etimedout

/-- A probe for which only NAT-PMP succeeds (fixture). -/
def probeNatpmpOnly : ProbeOracle :=
  fun name => if name = natpmpMethodName then .ok 2 else .error .etimedout

/-- A protocol name that names no registered backend (fixture). -/
def bogusProtocol : String := "Bogus"

/-- The empty protocol argument (fixture). -/
def emptyProtocol : String := ""

/-- A canonical URN string (fixture). -/
def urnIPConn : List Char := "urn:schemas-upnp-org:service:WANIPConnection:1".data

/-- A URN string with a zero-padded version field (fixture). -/
def urnPadded : List Char := "urn:a:b:c:007".data

/- ===== Theorems ===== -/

set_option maxRecDepth 8192

/-- Helper: with all three arguments in their documented ranges, the request
constructor succeeds and the narrowing conversions are the identity. -/
theorem newRequestMappingReq_ok (internal external duration : Int)
    (h1 : 0 ≤ internal) (h2 : internal ≤ 65535)
    (h3 : 0 ≤ external) (h4 : external ≤ 65535)
    (h5 : 0 ≤ duration) (h6 : duration ≤ 4294967295) :
    newRequestMappingReq internal external duration =
      .ok { internalPort := internal.toNat, externalPort := external.toNat,
            mappingLifetime := duration.toNat } := by
  unfold newRequestMappingReq
  rw [if_neg (by omega), if_neg (by omega), if_neg (by omega)]
  simp only [uint16ofInt, uint32ofInt, Except.ok.injEq, RequestMappingReq.mk.injEq]
  refine ⟨by omega, by omega, by omega⟩

/-- Helper: the only error the request constructor produces is ERANGE. -/
theorem newRequestMappingReq_error (internal external duration : Int)
    (x : GoErr) (h : newRequestMappingReq internal external duration = .error x) :
    x = .erange := by
  unfold newRequestMappingReq at h
  split at h
  · injection h with h1; exact h1.symm
  · split at h
    · injection h with h1; exact h1.symm
    · split at h
      · injection h with h1; exact h1.symm
      · exact absurd h (by simp)

/-- C1: for in-range ports (and an in-range duration argument), the NAT-PMP
AddPortMapping rewrites a duration of 0 to 7200 seconds before the request is
encoded (the issued request's lifetime field shows the substitution), returns
nil exactly when the router's mapping response reports the requested external
port as the mapped port, and returns the "router mapped a different external
port than requested" error when the mapped port differs. -/
theorem natpmp_addPortMapping_spec (oracle : IssueOracle)
    (internalPort externalPort duration : Int)
    (h1 : 0 ≤ internalPort) (h2 : internalPort ≤ 65535)
    (h3 : 0 ≤ externalPort) (h4 : externalPort ≤ 65535)
    (h5 : 0 ≤ duration) (h6 : duration ≤ 4294967295) :
    (natpmpAddPortMapping oracle internalPort externalPort duration).2 =
      some { internalPort := internalPort.toNat,
             externalPort := externalPort.toNat,
             mappingLifetime :=
               (if duration = 0 then (defaultMappingDuration : Int) else duration).toNat } ∧
    ((natpmpAddPortMapping oracle internalPort externalPort duration).1 = .ok () ↔
      ∃ resp, oracle { internalPort := internalPort.toNat,
                       externalPort := externalPort.toNat,
                       mappingLifetime :=
                         (if duration = 0 then (defaultMappingDuration : Int) else duration).toNat } =
          .ok (.mappingResp resp) ∧ (resp.mappedPort : Int) = externalPort) ∧
    (∀ resp,
      oracle { internalPort := internalPort.toNat,
               externalPort := externalPort.toNat,
               mappingLifetime :=
                 (if duration = 0 then (defaultMappingDuration : Int) else duration).toNat } =
          .ok (.mappingResp resp) →
      (resp.mappedPort : Int) ≠ externalPort →
      (natpmpAddPortMapping oracle internalPort externalPort duration).1 =
        .error .mappedDifferentPort) := by
  have hd1 : 0 ≤ (if duration = 0 then (defaultMappingDuration : Int) else duration) := by
    unfold defaultMappingDuration; split <;> omega
  have hd2 : (if duration = 0 then (defaultMappingDuration : Int) else duration) ≤ 4294967295 := by
    unfold defaultMappingDuration; split <;> omega
  have hreq := newRequestMappingReq_ok internalPort externalPort _ h1 h2 h3 h4 hd1 hd2
  set req : RequestMappingReq :=
    { internalPort := internalPort.toNat, externalPort := externalPort.toNat,
      mappingLifetime := (if duration = 0 then (defaultMappingDuration : Int) else duration).toNat }
    with hreqdef
  cases ho : oracle req with
  | error e =>
    have hres : natpmpAddPortMapping oracle internalPort externalPort duration =
        (.error e, some req) := by
      simp [natpmpAddPortMapping, hreq, ho]
    refine ⟨by rw [hres], ?_, ?_⟩
    · rw [hres]
      constructor
      · intro h; exact absurd h (by simp)
      · rintro ⟨resp, hresp, -⟩
        exact absurd hresp (by simp)
    · intro resp hresp
      exact absurd hresp (by simp)
  | ok v =>
    cases v with
    | mappingResp resp =>
      by_cases heq : (resp.mappedPort : Int) = externalPort
      · have hres : natpmpAddPortMapping oracle internalPort externalPort duration =
            (.ok (), some req) := by
          simp [natpmpAddPortMapping, hreq, ho, heq]
        refine ⟨by rw [hres], ⟨fun _ => ⟨resp, rfl, heq⟩, fun _ => by rw [hres]⟩, ?_⟩
        intro resp2 hresp2 hne
        have hr2 : resp = resp2 := by
          injection hresp2 with h1
          injection h1
        subst hr2
        exact absurd heq hne
      · have hres : natpmpAddPortMapping oracle internalPort externalPort duration =
            (.error .mappedDifferentPort, some req) := by
          simp [natpmpAddPortMapping, hreq, ho, heq]
        refine ⟨by rw [hres], ?_, fun _ _ _ => by rw [hres]⟩
        rw [hres]
        constructor
        · intro h; exact absurd h (by simp)
        · rintro ⟨resp2, hresp2, heq2⟩
          have hr2 : resp = resp2 := by
            injection hresp2 with h1
            injection h1
          subst hr2
          exact absurd heq2 heq
    | otherResp =>
      have hres : natpmpAddPortMapping oracle internalPort externalPort duration =
          (.error .invalidAddResponse, some req) := by
        simp [natpmpAddPortMapping, hreq, ho]
      refine ⟨by rw [hres], ?_, ?_⟩
      · rw [hres]
        constructor
        · intro h; exact absurd h (by simp)
        · rintro ⟨resp, hresp, -⟩
          exact absurd hresp (by simp)
      · intro resp hresp
        exact absurd hresp (by simp)

/-- C1 witness: a concrete run of AddPortMapping with ports 9001/9001 and
duration 0 against an agreeable router succeeds, and the issued request's
lifetime is 7200. -/
theorem natpmp_addPortMapping_spec_witness :
    (natpmpAddPortMapping oracleHappy 9001 9001 0).2 =
      some { internalPort := 9001, externalPort := 9001, mappingLifetime := 7200 } ∧
    (natpmpAddPortMapping oracleHappy 9001 9001 0).1 = .ok () := by
  have h := natpmp_addPortMapping_spec oracleHappy 9001 9001 0
    (by decide) (by decide) (by decide) (by decide) (by decide) (by decide)
  refine ⟨by simpa [defaultMappingDuration] using h.1,
    h.2.1.mpr ⟨respHappy, by decide, by decide⟩⟩

/-- C2: evaluation of the encoder at the failing input.  The claim (and spec
§4.4.1) says any external port above 65535 is rejected with a range error,
but the code only rejects external ports above math.MaxUint32 = 2^32-1: with
internal=0, external=65536, duration=0 the constructor succeeds, silently
wrapping the 16-bit external-port field to 0 instead of returning ERANGE. -/
theorem newRequestMappingReq_accepts_oversized_external :
    newRequestMappingReq 0 65536 0 =
      .ok { internalPort := 0, externalPort := 0, mappingLifetime := 0 } ∧
    newRequestMappingReq 0 65536 0 ≠ .error .erange := by
  constructor <;> decide

/-- C10: the NAT-PMP DeletePortMapping returns ENOTSUP with no network I/O
exactly when the allowDeletePortMapping flag is false (its compiled-in
default; only the undocumented natpmp-allow-delete command-line flag sets
it); with the flag on and an in-range internal port it issues exactly one
TCP mapping request with suggested external port 0 and lifetime 0 and
returns the error component of that request's result. -/
theorem natpmp_deletePortMapping_spec (allowDelete : Bool)
    (oracle : IssueOracle) (internalPort externalPort : Int)
    (h1 : 0 ≤ internalPort) (h2 : internalPort ≤ 65535) :
    (((natpmpDeletePortMapping allowDelete oracle internalPort externalPort).1 =
        some .enotsup ∧
      (natpmpDeletePortMapping allowDelete oracle internalPort externalPort).2 = []) ↔
      allowDelete = false) ∧
    (allowDelete = true →
      (natpmpDeletePortMapping allowDelete oracle internalPort externalPort).2 =
        [{ internalPort := internalPort.toNat, externalPort := 0,
           mappingLifetime := 0 }] ∧
      (natpmpDeletePortMapping allowDelete oracle internalPort externalPort).1 =
        (match oracle { internalPort := internalPort.toNat, externalPort := 0,
                        mappingLifetime := 0 } with
         | .error e => some e
         | .ok _ => none)) ∧
    allowDeletePortMapping = false := by
  have hreq := newRequestMappingReq_ok internalPort 0 0 h1 h2
    (by omega) (by omega) (by omega) (by omega)
  cases allowDelete with
  | false =>
    refine ⟨by simp [natpmpDeletePortMapping], by simp, rfl⟩
  | true =>
    cases ho : oracle { internalPort := internalPort.toNat, externalPort := 0,
                        mappingLifetime := 0 } with
    | error e =>
      have hres : natpmpDeletePortMapping true oracle internalPort externalPort =
          (some e, [{ internalPort := internalPort.toNat, externalPort := 0,
                      mappingLifetime := 0 }]) := by
        simp [natpmpDeletePortMapping, hreq, ho]
      refine ⟨?_, fun _ => ⟨by rw [hres], by rw [hres]⟩, rfl⟩
      rw [hres]
      simp
    | ok v =>
      have hres : natpmpDeletePortMapping true oracle internalPort externalPort =
          (none, [{ internalPort := internalPort.toNat, externalPort := 0,
                    mappingLifetime := 0 }]) := by
        simp [natpmpDeletePortMapping, hreq, ho]
      refine ⟨?_, fun _ => ⟨by rw [hres], by rw [hres]⟩, rfl⟩
      rw [hres]
      simp

/-- C10 witness: with the flag left at its default the call reports ENOTSUP
and sends nothing; with the flag forced on it sends the single delete-form
request 9001/0/0. -/
theorem natpmp_deletePortMapping_spec_witness :
    ((natpmpDeletePortMapping false oracleHappy 9001 9001).1 = some .enotsup ∧
      (natpmpDeletePortMapping false oracleHappy 9001 9001).2 = []) ∧
    (natpmpDeletePortMapping true oracleHappy 9001 9001).2 =
      [{ internalPort := 9001, externalPort := 0, mappingLifetime := 0 }] := by
  have hoff := natpmp_deletePortMapping_spec false oracleHappy 9001 9001
    (by decide) (by decide)
  have hon := natpmp_deletePortMapping_spec true oracleHappy 9001 9001
    (by decide) (by decide)
  refine ⟨hoff.1.mpr rfl, ?_⟩
  have := (hon.2.1 rfl).1
  simpa using this

/-- Helper: a 16-bit value is recovered from its two big-endian bytes. -/
theorem be16_bytes (v : Nat) (h : v < 65536) :
    be16 (byteOf (v / 256)) (byteOf v) = v := by
  unfold be16 byteOf; omega

/-- Helper: a 32-bit value is recovered from its four big-endian bytes. -/
theorem be32_bytes (v : Nat) (h : v < 4294967296) :
    be32 (byteOf (v / 16777216)) (byteOf (v / 65536)) (byteOf (v / 256))
      (byteOf v) = v := by
  unfold be32 byteOf; omega

/-- C3: the NAT-PMP encode/decode round-trip.  For in-range fields, build the
mapping request, lay out the successful response for it (version 0, opcode
2+128, result code 0, any epoch bytes, then the port/lifetime bytes exactly
as the encoder emitted them at offsets 4..11); decoding recovers precisely
the original internal port, external port and lifetime. -/
theorem mapping_encode_decode_roundtrip (internal external duration : Int)
    (e0 e1 e2 e3 : Nat)
    (h1 : 0 ≤ internal) (h2 : internal ≤ 65535)
    (h3 : 0 ≤ external) (h4 : external ≤ 65535)
    (h5 : 0 ≤ duration) (h6 : duration ≤ 4294967295)
    (req : RequestMappingReq)
    (hreq : newRequestMappingReq internal external duration = .ok req) :
    decodeRequestMappingResp req
      ([natpmpVersion, opRequestMappingTCP + opRespOffset, 0, 0, e0, e1, e2, e3] ++
        req.encode.drop 4) =
    .ok { hdr := { version := 0, op := opRequestMappingTCP + opRespOffset,
                   resultCode := 0 },
          epochTime := be32 e0 e1 e2 e3,
          internalPort := internal.toNat,
          mappedPort := external.toNat,
          mappingLifetime := duration.toNat } := by
  have hok := newRequestMappingReq_ok internal external duration h1 h2 h3 h4 h5 h6
  rw [hok] at hreq
  injection hreq with h7
  subst h7
  have hip : be16 (byteOf (internal.toNat / 256)) (byteOf internal.toNat) =
      internal.toNat := be16_bytes _ (by omega)
  have hep : be16 (byteOf (external.toNat / 256)) (byteOf external.toNat) =
      external.toNat := be16_bytes _ (by omega)
  have hlt : be32 (byteOf (duration.toNat / 16777216)) (byteOf (duration.toNat / 65536))
      (byteOf (duration.toNat / 256)) (byteOf duration.toNat) =
      duration.toNat := be32_bytes _ (by omega)
  have h00 : be16 0 0 = 0 := rfl
  simp [decodeRequestMappingResp, decodePacketHdr, RequestMappingReq.encode,
    RequestMappingReq.opcode, put16, put32, hdrLength, requestMappingRespLength,
    natpmpVersion, opRequestMappingTCP, opRespOffset, resultCodeToError,
    h00, hip, hep, hlt]

/-- C3 witness: the round-trip at 9001/9001/7200 with epoch bytes 0,1,2,3. -/
theorem mapping_encode_decode_roundtrip_witness :
    decodeRequestMappingResp
      { internalPort := 9001, externalPort := 9001, mappingLifetime := 7200 }
      ([natpmpVersion, opRequestMappingTCP + opRespOffset, 0, 0, 0, 1, 2, 3] ++
        (RequestMappingReq.encode
          { internalPort := 9001, externalPort := 9001,
            mappingLifetime := 7200 }).drop 4) =
    .ok { hdr := { version := 0, op := 130, resultCode := 0 },
          epochTime := 66051,
          internalPort := 9001, mappedPort := 9001, mappingLifetime := 7200 } := by
  have h := mapping_encode_decode_roundtrip 9001 9001 7200 0 1 2 3
    (by decide) (by decide) (by decide) (by decide) (by decide) (by decide)
    { internalPort := 9001, externalPort := 9001, mappingLifetime := 7200 }
    (by decide)
  simpa [be32, opRequestMappingTCP, opRespOffset] using h

/-- C4 counterexample: the claim says every decoder verifies that the version
byte equals 0, rejecting others; but a 12-byte external-address response with
version byte 1 (and correct opcode 128, result code 0) decodes successfully —
no decoder ever examines the version byte. -/
theorem decodeExternalAddressResp_ignores_version_byte :
    decodeExternalAddressResp [1, 128, 0, 0, 0, 0, 0, 0, 203, 0, 113, 5] =
      .ok { hdr := { version := 1, op := 128, resultCode := 0 },
            epochTime := 0, extAddr := [203, 0, 113, 5] } ∧
    (1 : Nat) ≠ natpmpVersion := by
  constructor <;> decide

/-- C4 (amended): each NAT-PMP response decoder fails on a buffer shorter
than the header, rejects an opcode other than the request's opcode with the
high bit set, maps a non-zero result code to the taxonomy error, and fails
on a total-length mismatch — but it does not verify the version byte. -/
theorem natpmp_decoders_steps (raw : List Nat) (req : RequestMappingReq) :
    (raw.length < hdrLength →
      decodeExternalAddressResp raw = .error .packetTooShort ∧
      decodeRequestMappingResp req raw = .error .packetTooShort) ∧
    (hdrLength ≤ raw.length → raw.getD 1 0 ≠ opExternalAddress + opRespOffset →
      decodeExternalAddressResp raw = .error .notExternalAddressResp) ∧
    (hdrLength ≤ raw.length → raw.getD 1 0 ≠ req.opcode + opRespOffset →
      decodeRequestMappingResp req raw = .error .notRequestMappingResp) ∧
    (∀ e, hdrLength ≤ raw.length →
      raw.getD 1 0 = opExternalAddress + opRespOffset →
      resultCodeToError (be16 (raw.getD 2 0) (raw.getD 3 0)) = some e →
      decodeExternalAddressResp raw = .error e) ∧
    (∀ e, hdrLength ≤ raw.length → raw.getD 1 0 = req.opcode + opRespOffset →
      resultCodeToError (be16 (raw.getD 2 0) (raw.getD 3 0)) = some e →
      decodeRequestMappingResp req raw = .error e) ∧
    (hdrLength ≤ raw.length → raw.getD 1 0 = opExternalAddress + opRespOffset →
      be16 (raw.getD 2 0) (raw.getD 3 0) = 0 →
      raw.length ≠ externalAddressRespLength →
      decodeExternalAddressResp raw = .error .invalidPacketLength) ∧
    (hdrLength ≤ raw.length → raw.getD 1 0 = req.opcode + opRespOffset →
      be16 (raw.getD 2 0) (raw.getD 3 0) = 0 →
      raw.length ≠ requestMappingRespLength →
      decodeRequestMappingResp req raw = .error .invalidPacketLength) := by
  refine ⟨?_, ?_, ?_, ?_, ?_, ?_, ?_⟩
  · intro h
    constructor <;>
      simp [decodeExternalAddressResp, decodeRequestMappingResp, decodePacketHdr, h]
  · intro h hop
    simp only [List.getD_eq_getElem?_getD] at hop
    simp [decodeExternalAddressResp, decodePacketHdr, Nat.not_lt.mpr h, hop]
  · intro h hop
    simp only [List.getD_eq_getElem?_getD] at hop
    simp [decodeRequestMappingResp, decodePacketHdr, Nat.not_lt.mpr h, hop]
  · intro e h hop hrc
    simp only [List.getD_eq_getElem?_getD] at hop hrc
    simp [decodeExternalAddressResp, decodePacketHdr, Nat.not_lt.mpr h, hop, hrc]
  · intro e h hop hrc
    simp only [List.getD_eq_getElem?_getD] at hop hrc
    simp [decodeRequestMappingResp, decodePacketHdr, Nat.not_lt.mpr h, hop, hrc]
  · intro h hop hrc hlen
    simp only [List.getD_eq_getElem?_getD] at hop hrc
    simp [decodeExternalAddressResp, decodePacketHdr, Nat.not_lt.mpr h, hop, hrc,
      resultCodeToError, hlen]
  · intro h hop hrc hlen
    simp only [List.getD_eq_getElem?_getD] at hop hrc
    simp [decodeRequestMappingResp, decodePacketHdr, Nat.not_lt.mpr h, hop, hrc,
      resultCodeToError, hlen]

/-- C4 witness: concrete buffers exercising each decoding step — a 1-byte
buffer, a wrong opcode, a non-zero result code (3, network failure), and an
8-byte truncated body. -/
theorem natpmp_decoders_steps_witness :
    decodeExternalAddressResp [0] = .error .packetTooShort ∧
    decodeRequestMappingResp
      { internalPort := 9001, externalPort := 9001, mappingLifetime := 7200 }
      [0] = .error .packetTooShort ∧
    decodeExternalAddressResp [0, 129, 0, 0] = .error .notExternalAddressResp ∧
    decodeRequestMappingResp
      { internalPort := 9001, externalPort := 9001, mappingLifetime := 7200 }
      [0, 129, 0, 0] = .error .notRequestMappingResp ∧
    decodeExternalAddressResp [0, 128, 0, 3] = .error .networkFailure ∧
    decodeRequestMappingResp
      { internalPort := 9001, externalPort := 9001, mappingLifetime := 7200 }
      [0, 130, 0, 3] = .error .networkFailure ∧
    decodeExternalAddressResp [0, 128, 0, 0, 0, 0, 0, 0] =
      .error .invalidPacketLength ∧
    decodeRequestMappingResp
      { internalPort := 9001, externalPort := 9001, mappingLifetime := 7200 }
      [0, 130, 0, 0, 0, 0, 0, 0] = .error .invalidPacketLength := by
  refine ⟨((natpmp_decoders_steps [0]
      { internalPort := 9001, externalPort := 9001, mappingLifetime := 7200 }).1
      (by decide)).1,
    ((natpmp_decoders_steps [0]
      { internalPort := 9001, externalPort := 9001, mappingLifetime := 7200 }).1
      (by decide)).2,
    (natpmp_decoders_steps [0, 129, 0, 0]
      { internalPort := 9001, externalPort := 9001, mappingLifetime := 7200 }).2.1
      (by decide) (by decide),
    (natpmp_decoders_steps [0, 129, 0, 0]
      { internalPort := 9001, externalPort := 9001, mappingLifetime := 7200 }).2.2.1
      (by decide) (by decide),
    (natpmp_decoders_steps [0, 128, 0, 3]
      { internalPort := 9001, externalPort := 9001, mappingLifetime := 7200 }).2.2.2.1
      .networkFailure (by decide) (by decide) (by decide),
    (natpmp_decoders_steps [0, 130, 0, 3]
      { internalPort := 9001, externalPort := 9001, mappingLifetime := 7200 }).2.2.2.2.1
      .networkFailure (by decide) (by decide) (by decide),
    (natpmp_decoders_steps [0, 128, 0, 0, 0, 0, 0, 0]
      { internalPort := 9001, externalPort := 9001, mappingLifetime := 7200 }).2.2.2.2.2.1
      (by decide) (by decide) (by decide) (by decide),
    (natpmp_decoders_steps [0, 130, 0, 0, 0, 0, 0, 0]
      { internalPort := 9001, externalPort := 9001, mappingLifetime := 7200 }).2.2.2.2.2.2
      (by decide) (by decide) (by decide) (by decide)⟩

/-- Helper: splitColon never returns an empty list of parts. -/
theorem splitColon_ne_nil (s : List Char) : splitColon s ≠ [] := by
  cases s with
  | nil => simp [splitColon]
  | cons c cs =>
    unfold splitColon
    split
    · simp
    · cases h : splitColon cs with
      | nil => simp
      | cons p ps => simp

/-- Helper: joinColon steps over the head character of the first part. -/
theorem joinColon_cons_cons (c : Char) (p : List Char) (ps : List (List Char)) :
    joinColon ((c :: p) :: ps) = c :: joinColon (p :: ps) := by
  cases ps <;> simp [joinColon]

/-- Helper: joining the parts of a split gives back the original string. -/
theorem joinColon_splitColon (s : List Char) :
    joinColon (splitColon s) = s := by
  induction s with
  | nil => rfl
  | cons c cs ih =>
    unfold splitColon
    by_cases hc : c = ':'
    · rw [if_pos hc]
      subst hc
      cases h : splitColon cs with
      | nil => exact absurd h (splitColon_ne_nil cs)
      | cons p ps =>
        rw [h] at ih
        simp [joinColon, ih]
    · rw [if_neg hc]
      cases h : splitColon cs with
      | nil => exact absurd h (splitColon_ne_nil cs)
      | cons p ps =>
        rw [h] at ih
        rw [joinColon_cons_cons, ih]

/-- Helper: parseInt8 accepts the canonical rendering of every n in
[0, 127]. -/
theorem parseInt8_natToChars_eq :
    ∀ n, n < 128 → parseInt8 (natToChars n) = some (n : Int) := by
  decide

/-- Helper: parseInt8 accepts a minus sign followed by the canonical
rendering of every n in [0, 128]. -/
theorem parseInt8_neg_natToChars_eq :
    ∀ n, n < 129 → parseInt8 ('-' :: natToChars n) = some (-(n : Int)) := by
  decide

/-- Helper: parseInt8 is a left inverse of the %d rendering on the whole
signed 8-bit range. -/
theorem parseInt8_intToChars (v : Int) (h1 : -128 ≤ v) (h2 : v ≤ 127) :
    parseInt8 (intToChars v) = some v := by
  unfold intToChars
  by_cases hv : v < 0
  · rw [if_pos hv]
    have h := parseInt8_neg_natToChars_eq (-v).toNat (by omega)
    rw [h]
    have : (-(((-v).toNat : Nat) : Int)) = v := by omega
    rw [this]
  · rw [if_neg hv]
    have h := parseInt8_natToChars_eq v.toNat (by omega)
    rw [h]
    have : ((v.toNat : Nat) : Int) = v := by omega
    rw [this]

/-- C7 counterexample: "urn:a:b:c:007" has exactly five colon-separated
parts and starts with "urn", parses successfully (strconv.ParseInt accepts
the zero-padded version), yet String() renders "urn:a:b:c:7" — the
round-trip does not return the original string. -/
theorem parseURN_render_not_id_on_padded_version :
    splitColon urnPadded =
      ["urn".data, "a".data, "b".data, "c".data, "007".data] ∧
    parseURN urnPadded =
      some { domainName := "a".data, kind := "b".data, kindType := "c".data,
             version := 7 } ∧
    UpnpURN.render
      { domainName := "a".data, kind := "b".data, kindType := "c".data,
        version := 7 } ≠ urnPadded := by
  refine ⟨by decide, by decide, by decide⟩

/-- C7 (amended): for a string of exactly five colon-separated parts whose
first part is "urn" and whose fifth part is the canonical decimal rendering
of an integer in [-128, 127] (as String() itself would produce it — no
leading zeros or plus sign), parsing succeeds and String() returns the
original string. -/
theorem parseURN_render_roundtrip (s p1 p2 p3 p4 : List Char) (v : Int)
    (hsplit : splitColon s = ["urn".data, p1, p2, p3, p4])
    (hp4 : p4 = intToChars v) (h1 : -128 ≤ v) (h2 : v ≤ 127) :
    parseURN s = some { domainName := p1, kind := p2, kindType := p3,
                        version := v } ∧
    UpnpURN.render { domainName := p1, kind := p2, kindType := p3,
                     version := v } = s := by
  subst hp4
  have hparse : parseInt8 (intToChars v) = some v := parseInt8_intToChars v h1 h2
  constructor
  · simp [parseURN, hsplit, hparse]
  · have hj := joinColon_splitColon s
    rw [hsplit] at hj
    rw [← hj]
    simp [UpnpURN.render, joinColon]

/-- C7 witness: the canonical WANIPConnection URN round-trips. -/
theorem parseURN_render_roundtrip_witness :
    parseURN urnIPConn =
      some { domainName := "schemas-upnp-org".data, kind := "service".data,
             kindType := "WANIPConnection".data, version := 1 } ∧
    UpnpURN.render
      { domainName := "schemas-upnp-org".data, kind := "service".data,
        kindType := "WANIPConnection".data, version := 1 } = urnIPConn := by
  exact parseURN_render_roundtrip urnIPConn "schemas-upnp-org".data
    "service".data "WANIPConnection".data "1".data 1
    (by decide) (by decide) (by decide) (by decide)

/-- C5: UPnP service selection succeeds only along the
InternetGatewayDevice → WANDevice → WANConnectionDevice path, with
WANIPConnection preferred over WANPPPConnection; a root that is not an
InternetGatewayDevice is rejected no matter what its service list holds
(the check precedes any service lookup), and a failed candidate — download
failure or selection miss — moves the walk to the next candidate URL. -/
theorem upnp_service_selection_spec :
    (∀ (t : List Char) (ds : List UpnpDevice) (ss : List UpnpService),
      (UpnpDevice.mk t ds ss).isType internetGatewayDevice = false →
      selectService (.mk t ds ss) = none) ∧
    (∀ rootD s, selectService rootD = some s →
      rootD.isType internetGatewayDevice = true ∧
      ∃ wanD, rootD.findChild wanDevice = some wanD ∧
        ∃ wanConnD, wanD.findChild wanConnectionDevice = some wanConnD ∧
          (wanConnD.findService wanIPConnection = some s ∨
            (wanConnD.findService wanIPConnection = none ∧
              wanConnD.findService wanPPPConnection = some s))) ∧
    (∀ rest, discoverFirst (none :: rest) = discoverFirst rest) ∧
    (∀ rootD rest, selectService rootD = none →
      discoverFirst (some rootD :: rest) = discoverFirst rest) := by
  refine ⟨?_, ?_, ?_, ?_⟩
  · intro t ds ss h
    simp [selectService, h]
  · intro rootD s h
    unfold selectService at h
    by_cases hig : rootD.isType internetGatewayDevice
    · refine ⟨hig, ?_⟩
      rw [if_neg (by simpa using hig)] at h
      cases hw : rootD.findChild wanDevice with
      | none => simp [hw] at h
      | some wanD =>
        simp only [hw] at h
        cases hwc : wanD.findChild wanConnectionDevice with
        | none => simp [hwc] at h
        | some wanConnD =>
          simp only [hwc] at h
          refine ⟨wanD, rfl, wanConnD, hwc, ?_⟩
          cases hip : wanConnD.findService wanIPConnection with
          | none =>
            simp only [hip] at h
            exact Or.inr ⟨rfl, h⟩
          | some sIP =>
            simp only [hip] at h
            left
            exact h
    · rw [if_pos (by simpa using hig)] at h
      exact absurd h (by simp)
  · intro rest
    simp [discoverFirst]
  · intro rootD rest h
    simp [discoverFirst, h]

/-- C5 witness: the printer-rooted tree is rejected even though it carries a
service list and the whole WAN subtree; the IGD-rooted tree yields the
WANIPConnection service; a failed download and the rejected candidate both
step to the next candidate. -/
theorem upnp_service_selection_spec_witness :
    selectService devPrinter = none ∧
    devRoot.isType internetGatewayDevice = true ∧
    discoverFirst [none, some devRoot] = discoverFirst [some devRoot] ∧
    discoverFirst [some devPrinter, some devRoot] =
      discoverFirst [some devRoot] := by
  refine ⟨?_, ?_, ?_, ?_⟩
  · exact upnp_service_selection_spec.1
      "urn:schemas-upnp-org:device:Printer:1".data [devWan] [svcIP] (by decide)
  · exact (upnp_service_selection_spec.2.1 devRoot svcIP (by decide)).1
  · exact upnp_service_selection_spec.2.2.1 [some devRoot]
  · exact upnp_service_selection_spec.2.2.2 devPrinter [some devRoot]
      (upnp_service_selection_spec.1
        "urn:schemas-upnp-org:device:Printer:1".data [devWan] [svcIP] (by decide))

/-- Helper: prepending the image of an offset to a shifted range-map. -/
theorem map_range_shift {α : Type} (g : Nat → α) (k idx : Nat) :
    g idx :: (List.range k).map (fun i => g (idx + 1 + i)) =
      (List.range (k + 1)).map (fun i => g (idx + i)) := by
  rw [List.range_succ_eq_map, List.map_cons, List.map_map]
  congr 1
  apply List.map_congr_left
  intro a ha
  simp only [Function.comp_apply, Nat.succ_eq_add_one]
  have hx : idx + 1 + a = idx + (a + 1) := by omega
  rw [hx]

/-- Helper: when the router answers k entries from idx on and faults at
idx+k (with k below the remaining fuel), the loop returns the k formatted
entries and queries exactly the indices idx..idx+k. -/
theorem getListLoop_breaks (router : EntryOracle) (es : Nat → PortMappingEntry) :
    ∀ (k idx fuel : Nat), k < fuel →
      (∀ i, i < k → router (idx + i) = .ok (some (es (idx + i)))) →
      router (idx + k) = .error () →
      getListLoop router fuel idx =
        ((List.range k).map (fun i => formatPortMapping (es (idx + i))),
          (List.range (k + 1)).map (fun i => idx + i)) := by
  intro k
  induction k with
  | zero =>
    intro idx fuel hf hok herr
    cases fuel with
    | zero => omega
    | succ f =>
      have h0 : router idx = .error () := by simpa using herr
      simp [getListLoop, h0, List.range_succ]
  | succ k ih =>
    intro idx fuel hf hok herr
    cases fuel with
    | zero => omega
    | succ f =>
      have h0 : router idx = .ok (some (es idx)) := by simpa using hok 0 (by omega)
      have hrec := ih (idx + 1) f (by omega)
        (fun i hi => by
          have h := hok (i + 1) (by omega)
          rwa [show idx + (i + 1) = idx + 1 + i from by omega] at h)
        (by
          have h := herr
          rwa [show idx + (k + 1) = idx + 1 + k from by omega] at h)
      simp only [getListLoop, h0, hrec]
      simp only [Prod.mk.injEq]
      exact ⟨map_range_shift (fun n => formatPortMapping (es n)) k idx,
        map_range_shift (fun n => n) (k + 1) idx⟩

/-- Helper: when the router answers an entry at every index the fuel can
reach, the loop exhausts the fuel, collecting fuel entries and querying
exactly the indices idx..idx+fuel-1 — the fault is never reached. -/
theorem getListLoop_all_ok (router : EntryOracle) (es : Nat → PortMappingEntry) :
    ∀ (fuel idx : Nat),
      (∀ i, i < fuel → router (idx + i) = .ok (some (es (idx + i)))) →
      getListLoop router fuel idx =
        ((List.range fuel).map (fun i => formatPortMapping (es (idx + i))),
          (List.range fuel).map (fun i => idx + i)) := by
  intro fuel
  induction fuel with
  | zero => intro idx _; simp [getListLoop]
  | succ f ih =>
    intro idx hok
    have h0 : router idx = .ok (some (es idx)) := by simpa using hok 0 (by omega)
    have hrec := ih (idx + 1)
      (fun i hi => by
        have h := hok (i + 1) (by omega)
        rwa [show idx + (i + 1) = idx + 1 + i from by omega] at h)
    simp only [getListLoop, h0, hrec]
    simp only [Prod.mk.injEq]
    exact ⟨map_range_shift (fun n => formatPortMapping (es n)) f idx,
      map_range_shift (fun n => n) f idx⟩

/-- C6 counterexample: the loop runs at most math.MaxUint16 = 65535
iterations.  Against a router that answers N = 65535 entries and faults at
index 65535, the claim says indices 0..65535 are queried; but the walk stops
after querying 0..65534 — index N is never queried (the fault is never
seen), even though the router behaves exactly as the claim's premise
demands at N = 65535. -/
theorem getListOfPortMappings_misses_final_index :
    (getListOfPortMappings (routerUpTo 65535)).2 ≠ List.range 65536 ∧
    routerUpTo 65535 65534 = .ok (some entryHappy) ∧
    routerUpTo 65535 65535 = .error () := by
  refine ⟨?_, by simp [routerUpTo], by simp [routerUpTo]⟩
  have h := getListLoop_all_ok (routerUpTo 65535) (fun _ => entryHappy) 65535 0
    (fun i hi => by simp [routerUpTo, hi])
  have h2 : (getListOfPortMappings (routerUpTo 65535)).2 =
      (List.range 65535).map (fun i => 0 + i) := by
    rw [getListOfPortMappings, h]
  rw [h2]
  intro hcontra
  have hlen := congrArg List.length hcontra
  rw [List.length_map, List.length_range, List.length_range] at hlen
  omega

/-- C6 (amended): for N ≤ 65534 — so that the fault is reached within the
65535-iteration cap — a router answering N entry-bearing successes and then
a SOAP Fault makes GetListOfPortMappings query indices 0..N in order and
return exactly the N formatted entries (the function reports no error). -/
theorem getListOfPortMappings_returns_N_strings (router : EntryOracle)
    (es : Nat → PortMappingEntry) (N : Nat) (hN : N ≤ 65534)
    (hok : ∀ i, i < N → router i = .ok (some (es i)))
    (herr : router N = .error ()) :
    getListOfPortMappings router =
      ((List.range N).map (fun i => formatPortMapping (es i)),
        List.range (N + 1)) := by
  have h := getListLoop_breaks router es N 0 65535 (by omega)
    (fun i hi => by simpa using hok i hi) (by simpa using herr)
  rw [getListOfPortMappings, h]
  simp

/-- C6 witness: a router with three entries and a fault at index 3 — the
walk queries 0,1,2,3 and returns three strings. -/
theorem getListOfPortMappings_returns_N_strings_witness :
    (getListOfPortMappings (routerUpTo 3)).2 = [0, 1, 2, 3] ∧
    (getListOfPortMappings (routerUpTo 3)).1.length = 3 := by
  have h := getListOfPortMappings_returns_N_strings (routerUpTo 3)
    (fun _ => entryHappy) 3 (by omega)
    (fun i hi => by simp [routerUpTo, hi]) (by simp [routerUpTo])
  rw [h]
  constructor
  · decide
  · simp

/-- C8 counterexample: the claim says any duration outside [0, 604800] is
rejected with a range error before a SOAP request is issued; but the code
checks only the upper bound, so duration = -1 slips through and the SOAP
request is issued with NewLeaseDuration = uint64(-1) = 2^64 - 1. -/
theorem upnp_addPortMapping_accepts_negative_duration :
    upnpAddPortMapping soapAlwaysOk internalClientW descrW 9001 9001 (-1) =
      (.ok (),
        some { newRemoteHost := "", newExternalPort := 9001,
               newProtocol := "TCP", newInternalPort := 9001,
               newInternalClient := internalClientW, newEnabled := 1,
               newPortMappingDescription := descrW,
               newLeaseDuration := 18446744073709551615 }) ∧
    (-1 : Int) < 0 := by
  constructor <;> decide

/-- C8 (amended): the UPnP AddPortMapping rejects durations above 604800
with a range error before any SOAP request is issued; every duration ≤
604800 — negative ones included, reduced modulo 2^64 by the uint64
conversion — is issued, and for durations in [0, 604800] the issued
NewLeaseDuration equals the duration argument. -/
theorem upnp_addPortMapping_duration_validation
    (soap : AddPortMappingArgs → Option GoErr) (internalClient descr : String)
    (internalPort externalPort duration : Int) :
    (duration > 604800 →
      upnpAddPortMapping soap internalClient descr internalPort externalPort
        duration = (.error .erange, none)) ∧
    (duration ≤ 604800 →
      (upnpAddPortMapping soap internalClient descr internalPort externalPort
          duration).2 =
        some { newRemoteHost := "", newExternalPort := uint64ofInt externalPort,
               newProtocol := "TCP", newInternalPort := uint64ofInt internalPort,
               newInternalClient := internalClient, newEnabled := 1,
               newPortMappingDescription := descr,
               newLeaseDuration := uint64ofInt duration }) ∧
    (0 ≤ duration → duration ≤ 604800 → uint64ofInt duration = duration.toNat) := by
  refine ⟨?_, ?_, ?_⟩
  · intro h
    simp only [upnpAddPortMapping, maxMappingDuration]
    rw [if_pos h]
  · intro h
    simp only [upnpAddPortMapping, maxMappingDuration]
    rw [if_neg (by omega)]
    cases (soap (mkAddPortMappingArgs internalClient descr internalPort
      externalPort duration)) <;> rfl
  · intro h1 h2
    unfold uint64ofInt
    omega

/-- C8 witness: duration 0 is passed through unchanged, the 604800 boundary
is issued with that lease, and 604801 fails with ERANGE unissued. -/
theorem upnp_addPortMapping_duration_validation_witness :
    upnpAddPortMapping soapAlwaysOk internalClientW descrW 9001 9001 604801 =
      (.error .erange, none) ∧
    (upnpAddPortMapping soapAlwaysOk internalClientW descrW 9001 9001 0).2 =
      some { newRemoteHost := "", newExternalPort := 9001,
             newProtocol := "TCP", newInternalPort := 9001,
             newInternalClient := internalClientW, newEnabled := 1,
             newPortMappingDescription := descrW, newLeaseDuration := 0 } ∧
    (upnpAddPortMapping soapAlwaysOk internalClientW descrW 9001 9001 604800).2 =
      some { newRemoteHost := "", newExternalPort := 9001,
             newProtocol := "TCP", newInternalPort := 9001,
             newInternalClient := internalClientW, newEnabled := 1,
             newPortMappingDescription := descrW, newLeaseDuration := 604800 } := by
  refine ⟨?_, ?_, ?_⟩
  · exact (upnp_addPortMapping_duration_validation soapAlwaysOk internalClientW
      descrW 9001 9001 604801).1 (by omega)
  · have h := (upnp_addPortMapping_duration_validation soapAlwaysOk internalClientW
      descrW 9001 9001 0).2.1 (by omega)
    rw [h]
    decide
  · have h := (upnp_addPortMapping_duration_validation soapAlwaysOk internalClientW
      descrW 9001 9001 604800).2.1 (by omega)
    rw [h]
    decide

/-- C9: the selector's New.  A non-empty protocol that names no registered
backend fails with the "unknown protocol" error without probing anything;
an empty protocol walks the registry in registration order — UPnP first,
then NAT-PMP — returning the first successfully probed client, and fails
with the "failed to initialize/discover a port forwarding mechanism" error
only when both probes fail. -/
theorem selector_new_spec (probe : ProbeOracle) (protocol : String) :
    (protocol ≠ "" → factoryNames.contains protocol = false →
      selectorNew probe protocol = (.error .unknownProtocol, [])) ∧
    (protocol = "" →
      (∀ c, probe upnpMethodName = .ok c →
        selectorNew probe protocol = (.ok c, [upnpMethodName])) ∧
      (∀ e c, probe upnpMethodName = .error e →
        probe natpmpMethodName = .ok c →
        selectorNew probe protocol =
          (.ok c, [upnpMethodName, natpmpMethodName])) ∧
      (∀ e1 e2, probe upnpMethodName = .error e1 →
        probe natpmpMethodName = .error e2 →
        selectorNew probe protocol =
          (.error .failedToInitialize, [upnpMethodName, natpmpMethodName]))) := by
  constructor
  · intro hne hnc
    have hmem : protocol ∉ factoryNames := by simpa using hnc
    simp only [selectorNew]
    rw [if_pos hne, if_neg (by simpa using hmem)]
  · intro hp
    subst hp
    refine ⟨?_, ?_, ?_⟩
    · intro c hc
      simp [selectorNew, selectorLoop, factoryNames, hc]
    · intro e c he hc
      simp [selectorNew, selectorLoop, factoryNames, he, hc]
    · intro e1 e2 h1 h2
      simp [selectorNew, selectorLoop, factoryNames, h1, h2]

/-- C9 witness: an unknown name fails unprobed; with only NAT-PMP able to
probe, the empty protocol tries UPnP first and settles on NAT-PMP; with
both failing, the selector reports the initialization failure after trying
both in order. -/
theorem selector_new_spec_witness :
    selectorNew probeNatpmpOnly bogusProtocol = (.error .unknownProtocol, []) ∧
    selectorNew probeUpnpOnly emptyProtocol = (.ok 1, [upnpMethodName]) ∧
    selectorNew probeNatpmpOnly emptyProtocol =
      (.ok 2, [upnpMethodName, natpmpMethodName]) ∧
    selectorNew probeAllFail emptyProtocol =
      (.error .failedToInitialize, [upnpMethodName, natpmpMethodName]) := by
  refine ⟨?_, ?_, ?_, ?_⟩
  · exact (selector_new_spec probeNatpmpOnly bogusProtocol).1
      (by decide) (by decide)
  · exact ((selector_new_spec probeUpnpOnly emptyProtocol).2 rfl).1 1 (by decide)
  · exact ((selector_new_spec probeNatpmpOnly emptyProtocol).2 rfl).2.1
      .etimedout 2 (by decide) (by decide)
  · exact ((selector_new_spec probeAllFail emptyProtocol).2 rfl).2.2
      .etimedout .etimedout (by decide) (by decide)
